import Mathlib

/-!
Verification of the cc-ardutemp serial subsystem: protocol codec
(`src/serial/protocol.rs`), shared state (`src/state.rs`) and the poll
loop state machine (`src/serial/reader.rs`), shallowly embedded in Lean.

Bytes are modelled as natural numbers (`u8` values are below 256; every
operation of the source keeps values below 256 when inputs are).
`f64` temperatures are modelled as exact rationals: each temperature is a
16-bit raw value divided by 10, which `f64` represents with error far
below the 0.01 tolerances of the spec.
-/

set_option maxRecDepth 8000

deriving instance DecidableEq for Except

namespace ArduTemp

/-! ### Protocol codec, from `src/serial/protocol.rs` -/

/-- One round of the CRC-8 inner loop, from `crc8` in `protocol.rs`:
`crc = if (crc & 0x01) != 0 { (crc >> 1) ^ 0x8C } else { crc >> 1 }`. -/
def crc8Round (crc : Nat) : Nat :=
  if crc &&& 0x01 ≠ 0 then (crc >>> 1) ^^^ 0x8C else crc >>> 1

/-- Processing of one input byte by `crc8` in `protocol.rs`:
`crc ^= byte` followed by the 8-iteration `for` loop. -/
def crc8Byte (crc byte : Nat) : Nat :=
  crc8Round^[8] (crc ^^^ byte)

/-- CRC-8 with polynomial 0x8C (reflected, LSB-first), from `crc8` in
`protocol.rs`: fold over the data starting from 0. -/
def crc8 (data : List Nat) : Nat :=
  data.foldl crc8Byte 0

/-- Modelled from the spec words of §4.1 "Checksum algorithm" (reference
definition, to be compared with `crc8` from the source): starting from 0,
for each input byte, exclusive-or it into the running value, then perform
8 iterations of: if the low bit is set, shift right one bit and
exclusive-or with 0x8C; otherwise shift right one bit only. -/
def crc8SpecIter : Nat → Nat → Nat
  | 0, c => c
  | n + 1, c => crc8SpecIter n (if c % 2 = 1 then c / 2 ^^^ 0x8C else c / 2)

/-- Main fold of the reference CRC-8 from the spec's words: for each input
byte, exclusive-or it into the running value, then run the 8 iterations. -/
def crc8SpecGo : List Nat → Nat → Nat
  | [], c => c
  | b :: rest, c => crc8SpecGo rest (crc8SpecIter 8 (c ^^^ b))

/-- Reference CRC-8 from the spec's words: the fold started from 0. -/
def crc8Spec (data : List Nat) : Nat :=
  crc8SpecGo data 0

/-- Parse errors, from `ParseError` in `protocol.rs`. -/
inductive ParseError where
  | TooShort (len : Nat)
  | CrcMismatch (received : Nat) (calculated : Nat)
  | InvalidCommand (cmd : Nat)
  | UnexpectedTempCount (count : Nat)
deriving DecidableEq, Repr

/-- Temperature data from the Arduino (4 sensors), from `TemperatureData`
in `protocol.rs`; the `f64` Celsius values are modelled as rationals. -/
structure TemperatureData where
  temps : List ℚ
deriving DecidableEq, Repr

/-- Derived `Default` of `TemperatureData`: `temps = [0.0; 4]`. -/
def TemperatureData.default : TemperatureData :=
  ⟨List.replicate 4 0⟩

/-- Request builder `build_request_packet` from `protocol.rs`: header `[0xAA, 0x02, 0x20]`
followed by its CRC-8. -/
def build_request_packet : List Nat :=
  [0xAA, 0x02, 0x20, crc8 [0xAA, 0x02, 0x20]]

/-- Big-endian reconstruction `u16::from_be_bytes([hi, lo])` on byte values. -/
def u16FromBe (hi lo : Nat) : Nat :=
  256 * hi + lo

/-- The `i`-th temperature extracted by `parse_response_packet`:
big-endian 16-bit value at offset `4 + 2*i`, in tenths of Celsius. -/
def tempAt (buffer : List Nat) (i : Nat) : ℚ :=
  (u16FromBe (buffer.getD (4 + 2 * i) 0) (buffer.getD (4 + 2 * i + 1) 0) : ℚ) / 10

/-- Response decoder `parse_response_packet` from `protocol.rs`. Expected format (13 bytes):
`[0xAA][0x02][0x20][TEMP_COUNT][T0_H][T0_L]...[T3_H][T3_L][CRC8]`.
Checks, in source order: length, CRC over bytes `[0..12)` against byte 12,
command byte 2, temperature count byte 3; then reads the four big-endian
values. In the source the indexing is in bounds (length ≥ 13), so
`List.getD _ _ 0` coincides with the source's `buffer[i]`. -/
def parse_response_packet (buffer : List Nat) :
    Except ParseError TemperatureData :=
  if buffer.length < 13 then
    .error (.TooShort buffer.length)
  else
    let received_crc := buffer.getD 12 0
    let calculated_crc := crc8 (buffer.take 12)
    if received_crc ≠ calculated_crc then
      .error (.CrcMismatch received_crc calculated_crc)
    else if buffer.getD 2 0 ≠ 0x20 then
      .error (.InvalidCommand (buffer.getD 2 0))
    else if buffer.getD 3 0 ≠ 4 then
      .error (.UnexpectedTempCount (buffer.getD 3 0))
    else
      .ok ⟨[tempAt buffer 0, tempAt buffer 1, tempAt buffer 2, tempAt buffer 3]⟩

/-! ### Shared state, from `src/state.rs`

`TemperatureState` wraps `Arc<RwLock<InnerState>>`; its operations act on
the locked `InnerState`, which is what we model. Lock poisoning (the
`Err` arms of `read()`/`write()`) is not modelled: with a single writer
thread that never panics while holding the lock, the `Ok` arm is the
behaviour of every operation. -/

/-- Shared cell contents `InnerState` from `state.rs`: latest temperatures plus connectivity. -/
structure InnerState where
  temperatures : TemperatureData
  connected : Bool
deriving DecidableEq, Repr

/-- Derived `Default` of `InnerState`: default temperatures, `false`. -/
def InnerState.default : InnerState :=
  ⟨TemperatureData.default, false⟩

/-- Constructor `TemperatureState::new`, which is `Self::default()`. -/
def TemperatureState.new : InnerState :=
  InnerState.default

/-- Operation `TemperatureState::update`: overwrite the stored temperatures. -/
def InnerState.update (s : InnerState) (data : TemperatureData) : InnerState :=
  { s with temperatures := data }

/-- Operation `TemperatureState::set_connected`: overwrite the connectivity flag. -/
def InnerState.set_connected (s : InnerState) (connected : Bool) : InnerState :=
  { s with connected := connected }

/-- Accessor `TemperatureState::get_temperatures`: snapshot of the four values. -/
def InnerState.get_temperatures (s : InnerState) : List ℚ :=
  s.temperatures.temps

/-- Accessor `TemperatureState::is_connected`: read the connectivity flag. -/
def InnerState.is_connected (s : InnerState) : Bool :=
  s.connected

/-! ### Poll loop, from `SerialReader::run` in `src/serial/reader.rs`

The loop is modelled as a step function on a control phase plus the
shared `InnerState`, driven by environment inputs: the value loaded from
the `running` flag at each of its loads, and the outcomes of `connect`
and `poll_temperatures`. Phases follow the control points of `run`:

* `outerCheck` — the outer `while running.load(..)` condition;
* `connecting` — the `match self.connect()`;
* `innerCheck` — the inner `while running.load(..)` condition;
* `polling` — the `match self.poll_temperatures(&mut port)`;
* `pollWait k` — inside the 10-iteration poll-interval wait with `k`
  one-second sleeps remaining (`pollWait 0` behaves as `innerCheck`);
* `backoffEntry e` — at the `if running.load(..)` guarding the reconnect
  wait, reached from a connect failure (`e = false`), from the inner
  `while` observing `running == false` (`e = false`), or from a poll
  error via `break` (`e = true`);
* `backoffWait k e` — inside the 5-iteration reconnect wait with `k`
  sleeps remaining (`backoffWait 0 e` behaves as `outerCheck`);
* `exited` — after the outer loop and the final `set_connected(false)`.

The flag `e` records whether the backoff was entered because of a poll
error; it is bookkeeping for stating properties and drives no transition.
-/

/-- Constant `POLL_INTERVAL_SECS` from `reader.rs`. -/
def POLL_INTERVAL_SECS : Nat := 10

/-- Constant `RECONNECT_DELAY_SECS` from `reader.rs`. -/
def RECONNECT_DELAY_SECS : Nat := 5

/-- Control points of `SerialReader::run`. -/
inductive Phase where
  | outerCheck
  | connecting
  | innerCheck
  | polling
  | pollWait (secsLeft : Nat)
  | backoffEntry (afterPollError : Bool)
  | backoffWait (secsLeft : Nat) (afterPollError : Bool)
  | exited
deriving DecidableEq, Repr

/-- State of the poll loop: control phase plus the shared state cell. -/
structure LoopState where
  phase : Phase
  shared : InnerState
deriving DecidableEq, Repr

/-- Environment inputs consumed by one step of the loop: a load of the
`running` flag, a `connect` outcome, or a `poll_temperatures` outcome. -/
inductive LoopInput where
  | runFlag (b : Bool)
  | connectOk
  | connectErr
  | pollOk (data : TemperatureData)
  | pollErr
deriving DecidableEq, Repr

/-- One step of `SerialReader::run`. Inputs that cannot occur at the
current control point leave the state unchanged (stutter). -/
def stepLoop (s : LoopState) (i : LoopInput) : LoopState :=
  match s.phase, i with
  -- outer `while running.load(..)`: false exits the loop and runs the
  -- trailing `self.state.set_connected(false)`
  | .outerCheck, .runFlag true => ⟨.connecting, s.shared⟩
  | .outerCheck, .runFlag false => ⟨.exited, s.shared.set_connected false⟩
  -- `match self.connect()`
  | .connecting, .connectOk => ⟨.innerCheck, s.shared.set_connected true⟩
  | .connecting, .connectErr => ⟨.backoffEntry false, s.shared.set_connected false⟩
  -- inner `while running.load(..)`
  | .innerCheck, .runFlag true => ⟨.polling, s.shared⟩
  | .innerCheck, .runFlag false => ⟨.backoffEntry false, s.shared⟩
  -- `match self.poll_temperatures(..)`: `Ok` publishes and starts the
  -- poll-interval wait; `Err` logs and `break`s to the reconnect path
  | .polling, .pollOk data => ⟨.pollWait POLL_INTERVAL_SECS, s.shared.update data⟩
  | .polling, .pollErr => ⟨.backoffEntry true, s.shared⟩
  -- `for _ in 0..POLL_INTERVAL_SECS { if !running.load(..) { break } .. }`,
  -- then back to the inner `while` condition
  | .pollWait 0, .runFlag true => ⟨.polling, s.shared⟩
  | .pollWait 0, .runFlag false => ⟨.backoffEntry false, s.shared⟩
  | .pollWait (k + 1), .runFlag true => ⟨.pollWait k, s.shared⟩
  | .pollWait (_ + 1), .runFlag false => ⟨.innerCheck, s.shared⟩
  -- `if running.load(..) { for _ in 0..RECONNECT_DELAY_SECS { .. } }`,
  -- then back to the outer `while` condition
  | .backoffEntry e, .runFlag true => ⟨.backoffWait RECONNECT_DELAY_SECS e, s.shared⟩
  | .backoffEntry _, .runFlag false => ⟨.outerCheck, s.shared⟩
  | .backoffWait 0 _, .runFlag true => ⟨.connecting, s.shared⟩
  | .backoffWait 0 _, .runFlag false => ⟨.exited, s.shared.set_connected false⟩
  | .backoffWait (k + 1) e, .runFlag true => ⟨.backoffWait k e, s.shared⟩
  | .backoffWait (_ + 1) _, .runFlag false => ⟨.outerCheck, s.shared⟩
  | _, _ => s

/-- Run the loop over a sequence of environment inputs. -/
def runLoop (s : LoopState) (ins : List LoopInput) : LoopState :=
  ins.foldl stepLoop s

/-- Initial loop state: at the outer check, with the freshly constructed
shared state handed to `SerialReader::new` in `main.rs`. -/
def initLoopState : LoopState :=
  ⟨.outerCheck, TemperatureState.new⟩

/-! ### Concrete frames used as test inputs -/

/-- First 12 bytes of a response carrying raw tenths 250, 300, 350, 400
(the frame of `test_parse_response_valid` in `protocol.rs`). -/
def sampleResponseBody : List Nat :=
  [0xAA, 0x02, 0x20, 0x04, 0x00, 0xFA, 0x01, 0x2C, 0x01, 0x5E, 0x01, 0x90]

/-- Correctly framed response with a valid checksum, carrying raw tenths
250, 300, 350, 400. -/
def sampleResponse : List Nat :=
  sampleResponseBody ++ [crc8 sampleResponseBody]

/-- A 13-byte buffer whose command byte (index 2) is `0x21` and whose
checksum byte `0x00` does not match the CRC-8 of its first 12 bytes. -/
def badCmdBadCrcFrame : List Nat :=
  [0xAA, 0x02, 0x21, 0x04, 0x00, 0xFA, 0x01, 0x2C, 0x01, 0x5E, 0x01, 0x90, 0x00]

/-- First 12 bytes of a frame whose command byte (index 2) is `0x21`. -/
def badCmdBody : List Nat :=
  [0xAA, 0x02, 0x21, 0x04, 0x00, 0xFA, 0x01, 0x2C, 0x01, 0x5E, 0x01, 0x90]

/-- A frame whose command byte is `0x21` but whose checksum is valid for
its (altered) contents (the frame of `test_parse_response_wrong_command`
in `protocol.rs`). -/
def badCmdGoodCrcFrame : List Nat :=
  badCmdBody ++ [crc8 badCmdBody]

/-- First 12 bytes of a frame with valid command byte but temperature
count 5 instead of 4. -/
def badCountBody : List Nat :=
  [0xAA, 0x02, 0x20, 0x05, 0x00, 0xFA, 0x01, 0x2C, 0x01, 0x5E, 0x01, 0x90]

/-- A frame with a valid checksum and command byte but temperature
count 5. -/
def badCountFrame : List Nat :=
  badCountBody ++ [crc8 badCountBody]

/-! ### Helper lemmas -/

/-- Iterating the source's inner-loop round agrees with the spec's
8-iteration description. -/
lemma crc8Round_iterate (n c : Nat) : crc8Round^[n] c = crc8SpecIter n c := by
  induction n generalizing c with
  | zero => rfl
  | succ k ih =>
    rw [Function.iterate_succ_apply, crc8SpecIter, ih]
    congr 1
    simp only [crc8Round, Nat.and_one_is_mod, Nat.shiftRight_eq_div_pow, pow_one]
    rcases Nat.mod_two_eq_zero_or_one c with h | h <;> simp [h]

/-- Folding the source's per-byte update agrees with the spec's fold. -/
lemma crc8_foldl_go (data : List Nat) (c : Nat) :
    data.foldl crc8Byte c = crc8SpecGo data c := by
  induction data generalizing c with
  | nil => rfl
  | cons b rest ih =>
    rw [List.foldl_cons, crc8SpecGo, ih]
    rw [crc8Byte, crc8Round_iterate]

/-- Decode result on a buffer shorter than 13 bytes. -/
lemma parse_too_short {buf : List Nat} (h : buf.length < 13) :
    parse_response_packet buf = .error (.TooShort buf.length) := by
  simp only [parse_response_packet]
  rw [if_pos h]

/-- Decode result when the checksum byte disagrees with the CRC-8 of the
first 12 bytes. -/
lemma parse_crc_mismatch {buf : List Nat} (hlen : 13 ≤ buf.length)
    (hcrc : buf.getD 12 0 ≠ crc8 (buf.take 12)) :
    parse_response_packet buf =
      .error (.CrcMismatch (buf.getD 12 0) (crc8 (buf.take 12))) := by
  simp only [parse_response_packet]
  rw [if_neg (Nat.not_lt.mpr hlen), if_pos hcrc]

/-- Decode result when the checksum is valid but the command byte is not
`0x20`. -/
lemma parse_invalid_command {buf : List Nat} (hlen : 13 ≤ buf.length)
    (hcrc : buf.getD 12 0 = crc8 (buf.take 12)) (hcmd : buf.getD 2 0 ≠ 0x20) :
    parse_response_packet buf = .error (.InvalidCommand (buf.getD 2 0)) := by
  simp only [parse_response_packet]
  rw [if_neg (Nat.not_lt.mpr hlen), if_neg (not_not_intro hcrc), if_pos hcmd]

/-- Decode result when checksum and command are valid but the temperature
count byte is not 4. -/
lemma parse_bad_count {buf : List Nat} (hlen : 13 ≤ buf.length)
    (hcrc : buf.getD 12 0 = crc8 (buf.take 12)) (hcmd : buf.getD 2 0 = 0x20)
    (hcount : buf.getD 3 0 ≠ 4) :
    parse_response_packet buf = .error (.UnexpectedTempCount (buf.getD 3 0)) := by
  simp only [parse_response_packet]
  rw [if_neg (Nat.not_lt.mpr hlen), if_neg (not_not_intro hcrc),
    if_neg (not_not_intro hcmd), if_pos hcount]

/-- Decode result when every check passes. -/
lemma parse_ok {buf : List Nat} (hlen : 13 ≤ buf.length)
    (hcrc : buf.getD 12 0 = crc8 (buf.take 12)) (hcmd : buf.getD 2 0 = 0x20)
    (hcount : buf.getD 3 0 = 4) :
    parse_response_packet buf =
      .ok ⟨[tempAt buf 0, tempAt buf 1, tempAt buf 2, tempAt buf 3]⟩ := by
  simp only [parse_response_packet]
  rw [if_neg (Nat.not_lt.mpr hlen), if_neg (not_not_intro hcrc),
    if_neg (not_not_intro hcmd), if_neg (not_not_intro hcount)]

/-- On any successful decode the temperatures are the four big-endian
16-bit values at offsets 4..11, each divided by 10. -/
lemma parse_ok_inv {buf : List Nat} {d : TemperatureData}
    (h : parse_response_packet buf = .ok d) :
    d.temps = [tempAt buf 0, tempAt buf 1, tempAt buf 2, tempAt buf 3] := by
  simp only [parse_response_packet] at h
  split at h
  · simp at h
  · split at h
    · simp at h
    · split at h
      · simp at h
      · split at h
        · simp at h
        · cases h
          rfl

/-- Indexing within the first 13 positions is unchanged by `take 13`. -/
lemma getD_take_13 (buf : List Nat) (i : Nat) (hi : i < 13) :
    (buf.take 13).getD i 0 = buf.getD i 0 := by
  simp [List.getD_eq_getElem?_getD, List.getElem?_take, hi]

/-- A buffer of at least 13 bytes decodes exactly as its first 13 bytes:
trailing bytes are ignored. -/
lemma parse_take_13 (buf : List Nat) (hlen : 13 ≤ buf.length) :
    parse_response_packet buf = parse_response_packet (buf.take 13) := by
  have hlen13 : ¬(buf.take 13).length < 13 := by
    simp only [List.length_take]
    omega
  have htake : (buf.take 13).take 12 = buf.take 12 := by
    rw [List.take_take]
    norm_num
  have hT0 : tempAt (buf.take 13) 0 = tempAt buf 0 := by
    unfold tempAt
    rw [getD_take_13 _ _ (by omega), getD_take_13 _ _ (by omega)]
  have hT1 : tempAt (buf.take 13) 1 = tempAt buf 1 := by
    unfold tempAt
    rw [getD_take_13 _ _ (by omega), getD_take_13 _ _ (by omega)]
  have hT2 : tempAt (buf.take 13) 2 = tempAt buf 2 := by
    unfold tempAt
    rw [getD_take_13 _ _ (by omega), getD_take_13 _ _ (by omega)]
  have hT3 : tempAt (buf.take 13) 3 = tempAt buf 3 := by
    unfold tempAt
    rw [getD_take_13 _ _ (by omega), getD_take_13 _ _ (by omega)]
  simp only [parse_response_packet, hlen13, Nat.not_lt.mpr hlen, if_false,
    getD_take_13 _ 2 (by omega), getD_take_13 _ 3 (by omega),
    getD_take_13 _ 12 (by omega), htake, hT0, hT1, hT2, hT3]

/-- Every position of a list of bytes (entries below 256) reads below 256,
with default 0. -/
lemma getD_lt_256 {buf : List Nat} (hb : ∀ b ∈ buf, b < 256) (i : Nat) :
    buf.getD i 0 < 256 := by
  by_cases h : i < buf.length
  · rw [List.getD_eq_getElem _ _ h]
    exact hb _ (List.getElem_mem h)
  · rw [List.getD_eq_default _ _ (by omega)]
    norm_num

/-- Over a byte buffer, each extracted temperature is a 16-bit raw value
divided by 10. -/
lemma tempAt_repr {buf : List Nat} (hb : ∀ b ∈ buf, b < 256) (i : Nat) :
    ∃ n : Nat, n ≤ 65535 ∧ tempAt buf i = (n : ℚ) / 10 := by
  refine ⟨u16FromBe (buf.getD (4 + 2 * i) 0) (buf.getD (4 + 2 * i + 1) 0), ?_, rfl⟩
  have h1 := getD_lt_256 hb (4 + 2 * i)
  have h2 := getD_lt_256 hb (4 + 2 * i + 1)
  unfold u16FromBe
  omega

/-- Decoding the sample response yields exactly 25, 30, 35 and 40 degrees. -/
lemma sampleResponse_decodes :
    parse_response_packet sampleResponse = .ok ⟨[25, 30, 35, 40]⟩ := by
  have e0 : tempAt sampleResponse 0 = 25 := by
    have h1 : sampleResponse.getD 4 0 = 0x00 := by decide
    have h2 : sampleResponse.getD 5 0 = 0xFA := by decide
    unfold tempAt
    rw [show 4 + 2 * 0 = 4 by rfl, show 4 + 2 * 0 + 1 = 5 by rfl, h1, h2]
    norm_num [u16FromBe]
  have e1 : tempAt sampleResponse 1 = 30 := by
    have h1 : sampleResponse.getD 6 0 = 0x01 := by decide
    have h2 : sampleResponse.getD 7 0 = 0x2C := by decide
    unfold tempAt
    rw [show 4 + 2 * 1 = 6 by rfl, show 4 + 2 * 1 + 1 = 7 by rfl, h1, h2]
    norm_num [u16FromBe]
  have e2 : tempAt sampleResponse 2 = 35 := by
    have h1 : sampleResponse.getD 8 0 = 0x01 := by decide
    have h2 : sampleResponse.getD 9 0 = 0x5E := by decide
    unfold tempAt
    rw [show 4 + 2 * 2 = 8 by rfl, show 4 + 2 * 2 + 1 = 9 by rfl, h1, h2]
    norm_num [u16FromBe]
  have e3 : tempAt sampleResponse 3 = 40 := by
    have h1 : sampleResponse.getD 10 0 = 0x01 := by decide
    have h2 : sampleResponse.getD 11 0 = 0x90 := by decide
    unfold tempAt
    rw [show 4 + 2 * 3 = 10 by rfl, show 4 + 2 * 3 + 1 = 11 by rfl, h1, h2]
    norm_num [u16FromBe]
  rw [parse_ok (by decide) (by decide) (by decide) (by decide), e0, e1, e2, e3]

/-- Any step that moves the loop from a non-`exited` phase into `exited`
performs `set_connected false` on the shared state. -/
lemma step_into_exited (s : LoopState) (i : LoopInput)
    (hne : s.phase ≠ .exited) (h : (stepLoop s i).phase = .exited) :
    (stepLoop s i).shared = s.shared.set_connected false := by
  unfold stepLoop at h ⊢
  split at h <;> simp_all

/-- One step preserves the invariant "in phase `exited`, the connectivity
flag is false". -/
lemma step_preserves_exited_inv (s : LoopState) (i : LoopInput)
    (hP : s.phase = .exited → s.shared.connected = false)
    (h : (stepLoop s i).phase = .exited) :
    (stepLoop s i).shared.connected = false := by
  unfold stepLoop at h ⊢
  split at h <;> simp_all [InnerState.set_connected]

/-- Any run that ends in phase `exited` ends with the connectivity flag
false, provided the invariant held initially. -/
lemma runLoop_exited_inv (ins : List LoopInput) (s : LoopState)
    (hP : s.phase = .exited → s.shared.connected = false)
    (h : (runLoop s ins).phase = .exited) :
    (runLoop s ins).shared.connected = false := by
  induction ins generalizing s with
  | nil => exact hP h
  | cons i rest ih => exact ih (stepLoop s i) (step_preserves_exited_inv s i hP) h

/-! ### Claim theorems -/

/-- Claim C3: the checksum function equals the reference CRC-8 definition
of the spec (start from 0; for each byte, XOR it in, then 8 iterations of
conditional shift-right/XOR with 0x8C) on every input byte sequence, and
the checksum of the empty input is 0. -/
theorem crc8_matches_reference :
    (∀ data : List Nat, crc8 data = crc8Spec data) ∧ crc8 [] = 0 :=
  ⟨fun data => crc8_foldl_go data 0, rfl⟩

/-- Claim C4: the encode operation takes no inputs and always returns
exactly the 4-byte frame with bytes 0xAA, 0x02, 0x20, and the CRC8 of the
first three bytes. -/
theorem build_request_packet_fields :
    build_request_packet.length = 4 ∧
    build_request_packet.getD 0 0 = 0xAA ∧
    build_request_packet.getD 1 0 = 0x02 ∧
    build_request_packet.getD 2 0 = 0x20 ∧
    build_request_packet.getD 3 0 = crc8 (build_request_packet.take 3) := by
  decide

/-- Claim C5: decode fails exactly under these conditions, checked in
this order: TooShort for fewer than 13 bytes; otherwise CrcMismatch with
the received and calculated values when the CRC8 over bytes [0..12)
disagrees with byte 12; otherwise InvalidCommand when byte 2 is not 0x20;
otherwise UnexpectedTempCount when byte 3 is not exactly 4; otherwise it
succeeds. -/
theorem decode_error_taxonomy (buf : List Nat) :
    (buf.length < 13 →
      parse_response_packet buf = .error (.TooShort buf.length)) ∧
    (13 ≤ buf.length → buf.getD 12 0 ≠ crc8 (buf.take 12) →
      parse_response_packet buf =
        .error (.CrcMismatch (buf.getD 12 0) (crc8 (buf.take 12)))) ∧
    (13 ≤ buf.length → buf.getD 12 0 = crc8 (buf.take 12) →
      buf.getD 2 0 ≠ 0x20 →
      parse_response_packet buf = .error (.InvalidCommand (buf.getD 2 0))) ∧
    (13 ≤ buf.length → buf.getD 12 0 = crc8 (buf.take 12) →
      buf.getD 2 0 = 0x20 → buf.getD 3 0 ≠ 4 →
      parse_response_packet buf =
        .error (.UnexpectedTempCount (buf.getD 3 0))) ∧
    (13 ≤ buf.length → buf.getD 12 0 = crc8 (buf.take 12) →
      buf.getD 2 0 = 0x20 → buf.getD 3 0 = 4 →
      parse_response_packet buf =
        .ok ⟨[tempAt buf 0, tempAt buf 1, tempAt buf 2, tempAt buf 3]⟩) :=
  ⟨parse_too_short,
   fun h1 h2 => parse_crc_mismatch h1 h2,
   fun h1 h2 h3 => parse_invalid_command h1 h2 h3,
   fun h1 h2 h3 h4 => parse_bad_count h1 h2 h3 h4,
   fun h1 h2 h3 h4 => parse_ok h1 h2 h3 h4⟩

/-- Witness for C5: each failure branch and the success branch exercised
on a concrete frame. -/
theorem decode_error_taxonomy_witness :
    parse_response_packet [] = .error (.TooShort 0) ∧
    parse_response_packet badCmdBadCrcFrame =
      .error (.CrcMismatch 0 (crc8 (badCmdBadCrcFrame.take 12))) ∧
    parse_response_packet badCmdGoodCrcFrame = .error (.InvalidCommand 0x21) ∧
    parse_response_packet badCountFrame = .error (.UnexpectedTempCount 5) ∧
    parse_response_packet sampleResponse =
      .ok ⟨[tempAt sampleResponse 0, tempAt sampleResponse 1,
            tempAt sampleResponse 2, tempAt sampleResponse 3]⟩ :=
  ⟨(decode_error_taxonomy []).1 (by decide),
   (decode_error_taxonomy badCmdBadCrcFrame).2.1 (by decide) (by decide),
   (decode_error_taxonomy badCmdGoodCrcFrame).2.2.1 (by decide) (by decide)
     (by decide),
   (decode_error_taxonomy badCountFrame).2.2.2.1 (by decide) (by decide)
     (by decide) (by decide),
   (decode_error_taxonomy sampleResponse).2.2.2.2 (by decide) (by decide)
     (by decide) (by decide)⟩

/-- Claim C2, counterexample: a 13-byte buffer with command byte 0x21 and
a checksum byte that does not match the CRC8 of its altered contents
fails with CrcMismatch, not with the semantic error InvalidCommand. -/
theorem bad_command_bad_crc_counterexample :
    badCmdBadCrcFrame.length = 13 ∧
    badCmdBadCrcFrame.getD 2 0 ≠ 0x20 ∧
    parse_response_packet badCmdBadCrcFrame = .error (.CrcMismatch 0 91) ∧
    parse_response_packet badCmdBadCrcFrame ≠
      .error (.InvalidCommand (badCmdBadCrcFrame.getD 2 0)) := by
  decide

/-- Claim C2 as amended: for buffers of at least 13 bytes whose byte 2 is
not 0x20, decode always fails, but the error is InvalidCommand only when
the checksum byte matches the CRC8 of bytes [0..12); when it does not
match, the failure is CrcMismatch (the CRC check runs first). -/
theorem bad_command_decode_fails (buf : List Nat) (hlen : 13 ≤ buf.length)
    (hcmd : buf.getD 2 0 ≠ 0x20) :
    (buf.getD 12 0 = crc8 (buf.take 12) →
      parse_response_packet buf = .error (.InvalidCommand (buf.getD 2 0))) ∧
    (buf.getD 12 0 ≠ crc8 (buf.take 12) →
      parse_response_packet buf =
        .error (.CrcMismatch (buf.getD 12 0) (crc8 (buf.take 12)))) :=
  ⟨fun hcrc => parse_invalid_command hlen hcrc hcmd,
   fun hcrc => parse_crc_mismatch hlen hcrc⟩

/-- Witness for the amended C2: both branches on concrete frames. -/
theorem bad_command_decode_fails_witness :
    parse_response_packet badCmdGoodCrcFrame = .error (.InvalidCommand 0x21) ∧
    parse_response_packet badCmdBadCrcFrame =
      .error (.CrcMismatch 0 (crc8 (badCmdBadCrcFrame.take 12))) :=
  ⟨(bad_command_decode_fails badCmdGoodCrcFrame (by decide) (by decide)).1
     (by decide),
   (bad_command_decode_fails badCmdBadCrcFrame (by decide) (by decide)).2
     (by decide)⟩

/-- Claim C6: on success the reading consists of the four big-endian
16-bit values read from bytes [4..12), each divided by 10, in order; the
result depends only on the first 13 bytes; and the sample frame carrying
raw tenths 250, 300, 350, 400 decodes to [25, 30, 35, 40] (exactly, in
the rational model, hence within tolerance 0.01). -/
theorem decode_success_fields :
    (∀ (buf : List Nat) (d : TemperatureData),
      parse_response_packet buf = .ok d →
      d.temps = [tempAt buf 0, tempAt buf 1, tempAt buf 2, tempAt buf 3]) ∧
    (∀ buf : List Nat, 13 ≤ buf.length →
      parse_response_packet buf = parse_response_packet (buf.take 13)) ∧
    parse_response_packet sampleResponse = .ok ⟨[25, 30, 35, 40]⟩ :=
  ⟨fun _ _ h => parse_ok_inv h, parse_take_13, sampleResponse_decodes⟩

/-- Witness for C6: the field equation at the sample frame, and trailing
bytes beyond 13 being ignored at a concrete extended frame. -/
theorem decode_success_fields_witness :
    (TemperatureData.mk [25, 30, 35, 40]).temps =
      [tempAt sampleResponse 0, tempAt sampleResponse 1,
        tempAt sampleResponse 2, tempAt sampleResponse 3] ∧
    parse_response_packet (sampleResponse ++ [0xFF]) =
      parse_response_packet ((sampleResponse ++ [0xFF]).take 13) :=
  ⟨decode_success_fields.1 sampleResponse ⟨[25, 30, 35, 40]⟩
     sampleResponse_decodes,
   decode_success_fields.2.1 (sampleResponse ++ [0xFF]) (by decide)⟩

/-- Claim C10: every reading produced by a successful decode of a byte
buffer has each value nonnegative, at most 6553.5, and equal to a 16-bit
raw value divided by 10. -/
theorem decoded_temps_in_range (buf : List Nat) (hbytes : ∀ b ∈ buf, b < 256)
    (d : TemperatureData) (hok : parse_response_packet buf = .ok d) :
    ∀ t ∈ d.temps,
      0 ≤ t ∧ t ≤ 6553.5 ∧ ∃ n : Nat, n ≤ 65535 ∧ t = (n : ℚ) / 10 := by
  intro t ht
  rw [parse_ok_inv hok] at ht
  have key : ∀ j : Nat, t = tempAt buf j →
      0 ≤ t ∧ t ≤ 6553.5 ∧ ∃ n : Nat, n ≤ 65535 ∧ t = (n : ℚ) / 10 := by
    intro j hj
    obtain ⟨n, hn, he⟩ := tempAt_repr hbytes j
    subst hj
    rw [he]
    have hcast : (n : ℚ) ≤ 65535 := by exact_mod_cast hn
    refine ⟨by positivity, by linarith, n, hn, rfl⟩
  simp only [List.mem_cons, List.not_mem_nil, or_false] at ht
  rcases ht with h | h | h | h <;> exact key _ h

/-- Witness for C10: the bounds at the first value decoded from the
sample frame. -/
theorem decoded_temps_in_range_witness :
    0 ≤ (25 : ℚ) ∧ (25 : ℚ) ≤ 6553.5 ∧
      ∃ n : Nat, n ≤ 65535 ∧ (25 : ℚ) = (n : ℚ) / 10 :=
  decoded_temps_in_range sampleResponse (by decide) ⟨[25, 30, 35, 40]⟩
    sampleResponse_decodes 25 (List.mem_cons_self 25 [30, 35, 40])

/-- Claim C7: a freshly constructed shared state returns the all-zero
four-value reading from the snapshot accessor and false from the
connectivity accessor. -/
theorem fresh_state_defaults :
    InnerState.get_temperatures TemperatureState.new = [0, 0, 0, 0] ∧
    InnerState.is_connected TemperatureState.new = false := by
  decide

/-- Claim C9: the update operation changes only the stored reading and
the set-connectivity operation changes only the flag, for every prior
state and argument. -/
theorem state_operations_frame (s : InnerState) (data : TemperatureData)
    (c : Bool) :
    (s.update data).temperatures = data ∧
    (s.update data).connected = s.connected ∧
    (s.set_connected c).connected = c ∧
    (s.set_connected c).temperatures = s.temperatures :=
  ⟨rfl, rfl, rfl, rfl⟩

/-- Witness for C9: the frame conditions at a concrete state and
concrete arguments. -/
theorem state_operations_frame_witness :
    (TemperatureState.new.update (TemperatureData.mk [1, 2, 3, 4])).temperatures
      = TemperatureData.mk [1, 2, 3, 4] ∧
    (TemperatureState.new.update (TemperatureData.mk [1, 2, 3, 4])).connected
      = TemperatureState.new.connected ∧
    (TemperatureState.new.set_connected true).connected = true ∧
    (TemperatureState.new.set_connected true).temperatures
      = TemperatureState.new.temperatures :=
  state_operations_frame TemperatureState.new ⟨[1, 2, 3, 4]⟩ true

/-- Claim C1, counterexample: after a successful connect and a poll
error, the loop reaches the reconnect backoff entered through the poll
error branch with the connectivity flag still true. -/
theorem poll_error_backoff_still_connected :
    runLoop initLoopState
        [.runFlag true, .connectOk, .runFlag true, .pollErr, .runFlag true] =
      ⟨.backoffWait RECONNECT_DELAY_SECS true,
        ⟨TemperatureData.default, true⟩⟩ ∧
    (runLoop initLoopState
        [.runFlag true, .connectOk, .runFlag true,
          .pollErr, .runFlag true]).shared.is_connected = true := by
  decide

/-- Claim C1 as amended: on a poll error the loop breaks into the
reconnect backoff leaving the shared state (connectivity flag included)
unchanged; the backoff steps also leave it unchanged. The flag is set
false only by a failed connect attempt or at loop exit, not on a poll
error. -/
theorem poll_error_leaves_flag_unchanged (sh : InnerState) (k : Nat)
    (e : Bool) :
    stepLoop ⟨.polling, sh⟩ .pollErr = ⟨.backoffEntry true, sh⟩ ∧
    stepLoop ⟨.backoffEntry e, sh⟩ (.runFlag true) =
      ⟨.backoffWait RECONNECT_DELAY_SECS e, sh⟩ ∧
    stepLoop ⟨.backoffWait (k + 1) e, sh⟩ (.runFlag true) =
      ⟨.backoffWait k e, sh⟩ :=
  ⟨rfl, rfl, rfl⟩

/-- Witness for the amended C1: the unchanged-state steps at a concrete
shared state with the connectivity flag true. -/
theorem poll_error_leaves_flag_unchanged_witness :
    stepLoop ⟨.polling, ⟨TemperatureData.default, true⟩⟩ .pollErr =
      ⟨.backoffEntry true, ⟨TemperatureData.default, true⟩⟩ ∧
    stepLoop ⟨.backoffEntry true, ⟨TemperatureData.default, true⟩⟩
        (.runFlag true) =
      ⟨.backoffWait RECONNECT_DELAY_SECS true,
        ⟨TemperatureData.default, true⟩⟩ ∧
    stepLoop ⟨.backoffWait 1 true, ⟨TemperatureData.default, true⟩⟩
        (.runFlag true) =
      ⟨.backoffWait 0 true, ⟨TemperatureData.default, true⟩⟩ :=
  poll_error_leaves_flag_unchanged ⟨TemperatureData.default, true⟩ 0 true

/-- Claim C8: whenever the loop exits (the only exit is the outer check
observing a stop request), the step into the terminal phase performs
`set_connected false` as its state modification, and every terminating
run from the initial state ends with the connectivity flag false. -/
theorem stop_clears_connected :
    (∀ (s : LoopState) (i : LoopInput), s.phase ≠ Phase.exited →
      (stepLoop s i).phase = Phase.exited →
      (stepLoop s i).shared = s.shared.set_connected false) ∧
    (∀ ins : List LoopInput,
      (runLoop initLoopState ins).phase = Phase.exited →
      (runLoop initLoopState ins).shared.connected = false) :=
  ⟨step_into_exited,
   fun ins h => runLoop_exited_inv ins initLoopState (by decide) h⟩

/-- Witness for C8: the immediate-stop run exits with the flag false. -/
theorem stop_clears_connected_witness :
    (stepLoop ⟨Phase.outerCheck, TemperatureState.new⟩
        (LoopInput.runFlag false)).shared =
      TemperatureState.new.set_connected false ∧
    (runLoop initLoopState [LoopInput.runFlag false]).shared.connected
      = false :=
  ⟨stop_clears_connected.1 ⟨Phase.outerCheck, TemperatureState.new⟩
      (LoopInput.runFlag false) (by decide) (by decide),
   stop_clears_connected.2 [LoopInput.runFlag false] (by decide)⟩

end ArduTemp
